import Mathlib

/-
Shallow embedding of the mermaid-trace core: the execution context
(`src/mermaid_trace/core/context.py`), flow events (`core/events.py`),
the tracing decorator wrappers (`core/decorators.py`), the Mermaid
sequence-diagram formatter (`core/formatter.py`) and the logging
handlers (`handlers/mermaid_handler.py`, `handlers/async_handler.py`).

Python dictionaries are modelled as association lists looked up
front-to-back (a fresh binding is prepended, so `List.lookup` sees the
most recent value of a key, matching dict assignment), exceptions as
`Except`, and stateful methods as explicit state-passing functions.
-/

namespace MermaidTrace

/-- A context snapshot: the dictionary held by
`LogContext._context_store`. Values are modelled as strings; the keys
the claims touch (`"participant"`, `"trace_id"`) only ever hold
strings. -/
abbrev Store := List (String × String)

/-- A Python exception as the tracing layer observes it: `str(error)`
and the text `traceback.format_exception` produces. Identity of the
re-raised exception is modelled as equality of this record. -/
structure Exn where
  message : String
  stack : String
deriving DecidableEq, Repr

namespace LogContext

/-- `LogContext.get(key, default)`: read one key from the current
snapshot, falling back to the default. -/
def get (s : Store) (key dflt : String) : String :=
  match s.lookup key with
  | some v => v
  | none => dflt

/-- `LogContext.set(key, value)`: copy-on-write insert of one key.
Dict assignment is modelled by prepending; `List.lookup` then returns
the new binding. -/
def set (s : Store) (key v : String) : Store :=
  (key, v) :: s

/-- `LogContext.update(data)`: copy-on-write merge of a whole mapping;
a no-op on an empty mapping, as in the source. Later entries of `data`
shadow earlier ones and all of them shadow `s`. -/
def update (s : Store) (data : Store) : Store :=
  if data.isEmpty then s else data.reverse ++ s

/-- `LogContext.get_all()`: defensive shallow copy of the snapshot
(copying is the identity in the pure model). -/
def get_all (s : Store) : Store := s

/-- `LogContext.current_participant()`: the `"participant"` key with
default `"Unknown"` (`str` of a string is itself). -/
def current_participant (s : Store) : String :=
  get s "participant" "Unknown"

/-- Modelled from the spec: `LogContext.current_trace_id` is called by
the decorator wrappers and the test-suite but its definition is absent
from the copy of `core/context.py` under `src/`. Per the spec it
"lazily creates and persists a random correlation id into the current
snapshot if none exists, otherwise returns the existing one". The
random UUID is modelled as the explicit argument `fresh`; the tests pin
the storage key to `"trace_id"`. Returns the id together with the
(possibly updated) snapshot. -/
def current_trace_id (s : Store) (fresh : String) : String × Store :=
  match s.lookup "trace_id" with
  | some t => (t, s)
  | none => (fresh, set s "trace_id" fresh)

/-- `LogContext.scope(data)` run around a block: merge `data` into a
derived snapshot, install it, run the block, and restore the prior
snapshot in the `finally` clause. `ContextVar.set` returns a token
holding the previous value and `ContextVar.reset(token)` restores
exactly that value — also when the block performed further sets, and
also when it raised. This is modelled by returning the saved prior
snapshot `s` next to the block's own outcome, discarding the snapshot
the block left installed. -/
def scope (s data : Store) (block : Store → Store × Except Exn Unit) :
    Store × Except Exn Unit :=
  let merged := update s data
  let res := block merged
  (s, res.2)

/-- `LogContext.ascope(data)`: the `async with` variant; its body is
literally the same token save/restore logic as `scope`. -/
def ascope (s data : Store) (block : Store → Store × Except Exn Unit) :
    Store × Except Exn Unit :=
  let merged := update s data
  let res := block merged
  (s, res.2)

end LogContext

/-- `FlowEvent` (`core/events.py`). The wall-clock float `timestamp` is
abstracted to a `Nat` tick (no claim depends on it). The `stack_trace`
and `collapsed` fields are read by `core/formatter.py` and produced by
`core/decorators.py` and the test-suite, but are absent from the copy
of `core/events.py` under `src/`; modelled from the spec:
"`error_message`, `stack_trace`: populated only when `is_error`" and
"`collapsed`: advisory flag set by producers that already know an event
represents a sampled/repeated interaction". -/
structure FlowEvent where
  source : String
  target : String
  action : String
  message : String
  trace_id : String
  timestamp : Nat := 0
  is_return : Bool := false
  is_error : Bool := false
  error_message : Option String := none
  params : Option String := none
  result : Option String := none
  stack_trace : Option String := none
  collapsed : Bool := false
deriving DecidableEq, Repr

/-- `_TraceMetadata` (`core/decorators.py`). -/
structure TraceMetadata where
  source : String
  target : String
  action : String
  trace_id : String
deriving DecidableEq, Repr

/-- `_log_interaction`: the call `FlowEvent` handed to the flow logger
(`message` is the action, `params` the pre-formatted argument text). -/
def logInteraction (meta : TraceMetadata) (params : String) : FlowEvent :=
  { source := meta.source, target := meta.target, action := meta.action,
    message := meta.action, params := some params, trace_id := meta.trace_id }

/-- `_log_return`: the return `FlowEvent`; source and target are
swapped because the return flows from the callee back to the caller. -/
def logReturn (source target action resultStr trace_id : String) : FlowEvent :=
  { source := target, target := source, action := action, message := "Return",
    is_return := true, result := some resultStr, trace_id := trace_id }

/-- `_log_error`: the error `FlowEvent`; swapped like a return, flagged
`is_return` and `is_error`, carrying `str(error)` twice and the full
formatted traceback. -/
def logError (meta : TraceMetadata) (e : Exn) : FlowEvent :=
  { source := meta.target, target := meta.source, action := meta.action,
    message := e.message, is_return := true, is_error := true,
    error_message := some e.message, stack_trace := some e.stack,
    trace_id := meta.trace_id }

/-- The snapshot the traced body runs under:
`LogContext.scope({"participant": current_target, "trace_id": trace_id})`
installed over the caller's snapshot, after `current_trace_id` possibly
persisted a fresh id. (`current_trace_id` is pure here, so recomputing
it below is the single evaluation the source performs.) -/
def wrapperInnerStore (target fresh : String) (s : Store) : Store :=
  let trace_id := (LogContext.current_trace_id s fresh).1
  let s1 := (LogContext.current_trace_id s fresh).2
  LogContext.update s1 [("participant", target), ("trace_id", trace_id)]

/-- The synchronous `wrapper` produced by `trace_interaction`
(`core/decorators.py`). `source` is the decorator's explicit source if
given; `target` is the already-resolved callee name (`_resolve_target`'s
duck-typed inference is an out-of-scope collaborator, as is the
argument formatting producing `paramsStr` and the capture-policy
result stringification `sr` standing for `_safe_repr`). The body is the
wrapped user function, run at the scoped snapshot; its outcome is an
`Except`. Returns the value handed to the caller, the emitted flow
events in order, and the snapshot after the scope was restored. -/
def syncWrapper (source : Option String) (target action fresh paramsStr : String)
    (sr : α → String) (body : Store → Except Exn α) (s : Store) :
    Except Exn α × List FlowEvent × Store :=
  let current_source := source.getD (LogContext.current_participant s)
  let trace_id := (LogContext.current_trace_id s fresh).1
  let s1 := (LogContext.current_trace_id s fresh).2
  let meta : TraceMetadata := ⟨current_source, target, action, trace_id⟩
  let callEv := logInteraction meta paramsStr
  match body (wrapperInnerStore target fresh s) with
  | .ok r =>
      (.ok r, [callEv, logReturn current_source target action (sr r) trace_id], s1)
  | .error e =>
      (.error e, [callEv, logError meta e], s1)

/-- The asynchronous `async_wrapper`: same resolution, logging and
re-raise logic as the sync wrapper, with `ascope` in place of `scope`
(identical in the model). -/
def asyncWrapper (source : Option String) (target action fresh paramsStr : String)
    (sr : α → String) (body : Store → Except Exn α) (s : Store) :
    Except Exn α × List FlowEvent × Store :=
  let current_source := source.getD (LogContext.current_participant s)
  let trace_id := (LogContext.current_trace_id s fresh).1
  let s1 := (LogContext.current_trace_id s fresh).2
  let meta : TraceMetadata := ⟨current_source, target, action, trace_id⟩
  let callEv := logInteraction meta paramsStr
  match body (wrapperInnerStore target fresh s) with
  | .ok r =>
      (.ok r, [callEv, logReturn current_source target action (sr r) trace_id], s1)
  | .error e =>
      (.error e, [callEv, logError meta e], s1)

/-- C1: for every call to a function wrapped by the trace decorator
(sync or async) whose body raises an exception `e`, the wrapper
observes `e`, emits an error `FlowEvent` (`is_error`, `is_return`,
carrying the exception's message) right after the call event, and
re-raises `e` unchanged, so the caller receives exactly the original
exception. -/
theorem c1_traced_error_observed_and_reraised
    (source : Option String) (target action fresh paramsStr : String)
    (sr : α → String) (body : Store → Except Exn α) (s : Store) (e : Exn)
    (h : body (wrapperInnerStore target fresh s) = .error e) :
    (syncWrapper source target action fresh paramsStr sr body s).1 = .error e ∧
    (asyncWrapper source target action fresh paramsStr sr body s).1 = .error e ∧
    ∃ meta : TraceMetadata,
      (syncWrapper source target action fresh paramsStr sr body s).2.1 =
        [logInteraction meta paramsStr, logError meta e] ∧
      (asyncWrapper source target action fresh paramsStr sr body s).2.1 =
        [logInteraction meta paramsStr, logError meta e] ∧
      (logError meta e).is_error = true ∧
      (logError meta e).is_return = true ∧
      (logError meta e).error_message = some e.message := by
  refine ⟨?_, ?_, ?_⟩
  · simp only [syncWrapper, h]
  · simp only [asyncWrapper, h]
  · exact ⟨⟨source.getD (LogContext.current_participant s), target, action,
      (LogContext.current_trace_id s fresh).1⟩,
      by simp only [syncWrapper, h], by simp only [asyncWrapper, h], rfl, rfl, rfl⟩

/-- C1 witness: a concrete traced call whose body raises. -/
theorem c1_witness :
    ((fun (_ : Store) => (Except.error ⟨"oops", "tb"⟩ : Except Exn Unit))
        (wrapperInnerStore "B" "t0" []) =
      Except.error (⟨"oops", "tb"⟩ : Exn)) ∧
    (syncWrapper (some "A") "B" "Act" "t0" "p" (fun (_ : Unit) => "")
        (fun _ => (Except.error ⟨"oops", "tb"⟩ : Except Exn Unit)) []).1 =
      Except.error (⟨"oops", "tb"⟩ : Exn) := by
  refine ⟨rfl, ?_⟩
  exact (c1_traced_error_observed_and_reraised (some "A") "B" "Act" "t0" "p"
    (fun (_ : Unit) => "")
    (fun _ => (Except.error ⟨"oops", "tb"⟩ : Except Exn Unit)) []
    ⟨"oops", "tb"⟩ rfl).1

/-- C2 (spec-modelled, see `LogContext.current_trace_id`):
`current_trace_id` returns the existing id and leaves the snapshot
unchanged when one exists; otherwise it returns the fresh id and
persists it into the snapshot. Consequently two calls within one
unbroken logical execution (no intervening reset) return the identical
value, even with different candidate fresh ids. -/
theorem c2_trace_id_lazy_and_stable (s : Store) (fresh1 fresh2 : String) :
    (LogContext.current_trace_id (LogContext.current_trace_id s fresh1).2 fresh2).1 =
      (LogContext.current_trace_id s fresh1).1 ∧
    (LogContext.current_trace_id (LogContext.current_trace_id s fresh1).2 fresh2).2 =
      (LogContext.current_trace_id s fresh1).2 ∧
    (s.lookup "trace_id" = none →
      (LogContext.current_trace_id s fresh1).1 = fresh1 ∧
      ((LogContext.current_trace_id s fresh1).2).lookup "trace_id" = some fresh1) ∧
    (∀ t, s.lookup "trace_id" = some t →
      (LogContext.current_trace_id s fresh1).1 = t ∧
      (LogContext.current_trace_id s fresh1).2 = s) := by
  cases h : s.lookup "trace_id" with
  | none =>
      refine ⟨?_, ?_, fun _ => ⟨?_, ?_⟩, fun t ht => by simp [h] at ht⟩ <;>
        simp [LogContext.current_trace_id, LogContext.set, h, List.lookup]
  | some t =>
      refine ⟨?_, ?_, fun hn => by simp [h] at hn, fun t' ht' => ?_⟩ <;>
        simp_all [LogContext.current_trace_id, h]

/-- C2 witness: a concrete snapshot with no trace id yet. -/
theorem c2_witness :
    (LogContext.current_trace_id
        (LogContext.current_trace_id [("participant", "A")] "f1").2 "f2").1 =
      (LogContext.current_trace_id [("participant", "A")] "f1").1 ∧
    (LogContext.current_trace_id [("participant", "A")] "f1").1 = "f1" :=
  ⟨(c2_trace_id_lazy_and_stable [("participant", "A")] "f1" "f2").1,
   ((c2_trace_id_lazy_and_stable [("participant", "A")] "f1" "f2").2.2.1 rfl).1⟩

/-- C5: for every mapping and every block wrapped in `scope(mapping)`
(or `ascope`), the snapshot observed by `get_all()` after the block is
exactly the snapshot from before the block, whether the block completed
normally or raised — and the block's own outcome (including an
exception) is passed through untouched. -/
theorem c5_scope_restores_snapshot (s data : Store)
    (block : Store → Store × Except Exn Unit) :
    LogContext.get_all (LogContext.scope s data block).1 = LogContext.get_all s ∧
    LogContext.get_all (LogContext.ascope s data block).1 = LogContext.get_all s ∧
    (LogContext.scope s data block).2 = (block (LogContext.update s data)).2 ∧
    (LogContext.ascope s data block).2 = (block (LogContext.update s data)).2 :=
  ⟨rfl, rfl, rfl, rfl⟩

/-- Replace every occurrence of the character `c` by the string `r`
(all the replacements `_escape_message` performs have a single-character
pattern). Defined on the character list so that it evaluates inside the
kernel. -/
def replaceChar (c : Char) (r : List Char) : List Char → List Char
  | [] => []
  | x :: xs => if x = c then r ++ replaceChar c r xs else x :: replaceChar c r xs

/-- Python `str.strip()`: drop leading and trailing whitespace. -/
def stripStr (s : String) : String :=
  ⟨((s.data.dropWhile Char.isWhitespace).reverse.dropWhile
      Char.isWhitespace).reverse⟩

/-- `"\n".join`-style concatenation used by `flush`. -/
def joinLines : List String → String
  | [] => ""
  | [l] => l
  | l :: ls => l ++ "\n" ++ joinLines ls

/-- Python f-string rendering of an `Optional[str]`: `None` prints as
`"None"`. -/
def pyOptStr : Option String → String
  | some s => s
  | none => "None"

/-- Python truthiness of an `Optional[str]`: `None` and `""` are falsy. -/
def optTruthy : Option String → Bool
  | some s => !s.data.isEmpty
  | none => false

/-- The signature used for pattern detection:
`(event.source, event.target, event.action, event.is_return)`. -/
def eventKey (e : FlowEvent) : String × String × String × Bool :=
  (e.source, e.target, e.action, e.is_return)

/-- `MermaidFormatter` mutable state as initialized in `__init__`:
the raw-name → sanitized-id map, the set of issued ids (a list, most
recent first), and the collapsing state (pending-event buffer, repeat
count, detected pattern of 1 or 2 signatures). -/
structure FormatterState where
  participant_map : List (String × String) := []
  used_ids : List String := []
  event_buffer : List FlowEvent := []
  pattern_count : Nat := 0
  current_pattern : List (String × String × String × Bool) := []
deriving DecidableEq, Repr

/-- A fresh `MermaidFormatter()`. -/
def initFormatter : FormatterState := {}

namespace MermaidFormatter

/-- `get_header(title)`: the fixed Mermaid preamble. -/
def get_header (title : String) : String :=
  "sequenceDiagram\n    title " ++ title ++ "\n    autonumber\n\n"

/-- `_escape_message`: newlines become `<br/>`; parentheses, brackets,
semicolon and hash are replaced with fullwidth lookalikes. (All the
patterns are single characters, so sequential character replacement is
exactly `str.replace` chained as in the source.) -/
def escape_message (msg : String) : String :=
  if msg.data.isEmpty then ""
  else
    let m := replaceChar '\n' "<br/>".data msg.data
    let m := replaceChar '(' "（".data m
    let m := replaceChar ')' "）".data m
    let m := replaceChar '[' "［".data m
    let m := replaceChar ']' "］".data m
    let m := replaceChar ';' "；".data m
    ⟨replaceChar '#' "＃".data m⟩

/-- The cleaned form inside `_sanitize`:
`re.sub(r"[^a-zA-Z0-9_]", "_", name)`, then a leading underscore when
the result starts with a digit, then `"Unknown"` when empty. -/
def cleanName (name : String) : String :=
  let l := name.data.map fun ch => if ch.isAlphanum || ch == '_' then ch else '_'
  let l :=
    match l with
    | [] => []
    | ch :: rest => if ch.isDigit then '_' :: ch :: rest else ch :: rest
  if l.isEmpty then "Unknown" else ⟨l⟩

/-- The collision `while` loop of `_sanitize`: starting at counter 1,
the first `base_counter` not among the issued ids. The Python loop
always terminates because only finitely many ids have been issued;
fuel `used.length + 1` provably suffices (`exists_fresh_candidate`
below), so the fuel-exhausted fallback is unreachable. -/
def findFresh (base : String) (used : List String) : Nat → Nat → String
  | 0, k => base ++ "_" ++ Nat.repr k
  | fuel + 1, k =>
    let cand := base ++ "_" ++ Nat.repr k
    if cand ∈ used then findFresh base used fuel (k + 1) else cand

/-- The id `_sanitize` issues for a raw name not seen before: the
cleaned form, suffixed through the collision loop when it was already
issued. -/
def freshCleanId (name : String) (used : List String) : String :=
  let clean := cleanName name
  if clean ∈ used then findFresh clean used (used.length + 1) 1
  else clean

/-- `_sanitize(name)`: cached lookup, else issue a new collision-free
id and record it (dict insertion modelled by prepending). -/
def sanitize (st : FormatterState) (name : String) : String × FormatterState :=
  match st.participant_map.lookup name with
  | some id => (id, st)
  | none =>
    let cleanId := freshCleanId name st.used_ids
    (cleanId,
      { st with participant_map := (name, cleanId) :: st.participant_map,
                used_ids := cleanId :: st.used_ids })

/-- `format_event(event, count)`: one Mermaid line (plus an annotation
line for errors with a stack trace, or for advisory-collapsed events).
Sanitizing the two participants updates the formatter's maps, so the
state is threaded through. The count suffix is appended to the message
before `_escape_message` runs, exactly as in the source. -/
def format_event (st : FormatterState) (e : FlowEvent) (count : Nat) :
    String × FormatterState :=
  let src := (sanitize st e.source).1
  let st1 := (sanitize st e.source).2
  let tgt := (sanitize st1 e.target).1
  let st2 := (sanitize st1 e.target).2
  let arrow := if e.is_error then "--x" else if e.is_return then "-->>" else "->>"
  let msg :=
    if e.is_error then "Error: " ++ pyOptStr e.error_message
    else if e.is_return then
      if optTruthy e.result then "Return: " ++ pyOptStr e.result else "Return"
    else
      if optTruthy e.params then
        e.message ++ "(" ++ pyOptStr e.params ++ ")"
      else e.message
  let msg := if count > 1 then msg ++ " (x" ++ Nat.repr count ++ ")" else msg
  let msg := escape_message msg
  let line := src ++ arrow ++ tgt ++ ": " ++ msg
  if e.is_error && optTruthy e.stack_trace then
    let shortStack :=
      escape_message (⟨(pyOptStr e.stack_trace).data.take 300⟩ ++ "...")
    (line ++ "\n" ++ "note right of " ++ tgt ++ ": " ++ shortStack, st2)
  else if e.collapsed && count == 1 then
    (line ++ "\n" ++ "note right of " ++ src ++ ": ( Sampled / Collapsed Interaction )",
     st2)
  else
    (line, st2)

/-- The `for` loop inside `flush`: format each buffered event with the
shared repeat count, threading the sanitizer state. -/
def formatEvents (st : FormatterState) (es : List FlowEvent) (count : Nat) :
    List String × FormatterState :=
  match es with
  | [] => ([], st)
  | e :: rest =>
    let line := (format_event st e count).1
    let st1 := (format_event st e count).2
    let lines := (formatEvents st1 rest count).1
    let st2 := (formatEvents st1 rest count).2
    (line :: lines, st2)

/-- `flush()`: emit the confirmed pattern once with the total repeat
count (one line per pattern slot, taken from the front of the buffer),
or the unpatterned buffered events individually with count 1; then
reset the collapsing state. An empty buffer returns `""` and leaves the
state untouched. -/
def flush (st : FormatterState) : String × FormatterState :=
  match st.event_buffer with
  | [] => ("", st)
  | _ :: _ =>
    let emitted :=
      if st.current_pattern.isEmpty then
        formatEvents st st.event_buffer 1
      else
        formatEvents st (st.event_buffer.take st.current_pattern.length)
          st.pattern_count
    (joinLines emitted.1,
     { emitted.2 with event_buffer := [], current_pattern := [],
                      pattern_count := 0 })

/-- `format(record)` for a record carrying a `FlowEvent` (the
`LogRecord` unwrapping and the non-`FlowEvent` fallback live in the
handler embedding): the pattern-detecting consume step. Python's
`prefix.strip()` / `output.strip()` on emitted text is `String.trim`. -/
def format (st : FormatterState) (e : FlowEvent) : String × FormatterState :=
  let key := eventKey e
  match st.current_pattern with
  | p :: ps =>
    -- Case 1: already in a pattern.
    let plen := (p :: ps).length
    let midx := st.event_buffer.length % plen
    if key = (p :: ps).getD midx ("", "", "", false) then
      ("", { st with
              event_buffer := st.event_buffer ++ [e],
              pattern_count :=
                if midx = plen - 1 then st.pattern_count + 1
                else st.pattern_count })
    else
      -- Pattern broken: flush, then restart detection from this event.
      let out := (flush st).1
      let st1 := (flush st).2
      (stripStr out, { st1 with event_buffer := [e] })
  | [] =>
    match st.event_buffer with
    | first :: _ =>
      -- Case 2: no pattern yet, one event buffered.
      if key = eventKey first then
        ("", { st with current_pattern := [eventKey first],
                       event_buffer := st.event_buffer ++ [e],
                       pattern_count := 2 })
      else if e.is_return ∧ e.source = first.target ∧ e.target = first.source
          ∧ e.action = first.action then
        ("", { st with current_pattern := [eventKey first, key],
                       event_buffer := st.event_buffer ++ [e],
                       pattern_count := 1 })
      else
        let out := (format_event st first 1).1
        let st1 := (format_event st first 1).2
        (stripStr out, { st1 with event_buffer := [e] })
    | [] =>
      -- Case 3: completely idle — buffer the event, emit nothing.
      ("", { st with event_buffer := [e] })

end MermaidFormatter

/-- One driver call on a formatter instance, as its owning handler
performs them: a consumed `FlowEvent` or a `flush()`. -/
inductive FmtOp where
  | consume (e : FlowEvent)
  | doFlush

/-- Apply one driver call, keeping the state. -/
def fmtStep (st : FormatterState) : FmtOp → FormatterState
  | .consume e => (MermaidFormatter.format st e).2
  | .doFlush => (MermaidFormatter.flush st).2

/-- Run a sequence of driver calls against one formatter instance. -/
def runFmt (st : FormatterState) : List FmtOp → FormatterState
  | [] => st
  | op :: ops => runFmt (fmtStep st op) ops

/-- Right after any `format` call, the pending buffer holds at most one
event whenever no pattern is active (all branches either confirm a
pattern or reset the buffer to the single incoming event). -/
lemma format_bufferBounded (st : FormatterState) (e : FlowEvent) :
    (MermaidFormatter.format st e).2.current_pattern = [] →
    (MermaidFormatter.format st e).2.event_buffer.length ≤ 1 := by
  obtain ⟨pm, ui, eb, pc, cp⟩ := st
  cases cp with
  | cons p ps =>
      simp only [MermaidFormatter.format]; split_ifs <;> simp_all
  | nil =>
      cases eb with
      | nil => simp [MermaidFormatter.format]
      | cons first rest =>
          simp only [MermaidFormatter.format]; split_ifs <;> simp_all

/-- Right after any `flush`, the buffer holds at most one event
whenever no pattern is active (it is empty, or was already empty). -/
lemma flush_bufferBounded (st : FormatterState) :
    (MermaidFormatter.flush st).2.current_pattern = [] →
    (MermaidFormatter.flush st).2.event_buffer.length ≤ 1 := by
  obtain ⟨pm, ui, eb, pc, cp⟩ := st
  unfold MermaidFormatter.flush
  cases eb <;> simp

/-- The one-event bound is preserved along any run of driver calls. -/
lemma runFmt_bufferBounded (ops : List FmtOp) :
    ∀ st : FormatterState,
      (st.current_pattern = [] → st.event_buffer.length ≤ 1) →
      ((runFmt st ops).current_pattern = [] →
        (runFmt st ops).event_buffer.length ≤ 1) := by
  induction ops with
  | nil => exact fun st h => h
  | cons op ops ih =>
      intro st _
      cases op with
      | consume e => exact ih _ (format_bufferBounded st e)
      | doFlush => exact ih _ (flush_bufferBounded st)

/-- The identical call event fed repeatedly in the repeated-call
collapse scenario. -/
def c3CallEvent : FlowEvent :=
  { source := "A", target := "B", action := "Act", message := "Act",
    trace_id := "t" }

/-- Formatter state after consuming `c3CallEvent` twice (N = 2). -/
def c3StateAfterTwo : FormatterState :=
  (MermaidFormatter.format
    (MermaidFormatter.format initFormatter c3CallEvent).2 c3CallEvent).2

/-- C3, evaluated at the failing input N = 2: flushing after two
identical call events does yield exactly one diagram line, but the
repeat annotation comes out as `（x2）` with fullwidth parentheses —
`format_event` appends the ` (x<N>)` suffix before `_escape_message`
replaces every parenthesis — so the line does not end in ` (x2)` as the
claim states (and as `tests/handlers/test_handlers.py` asserts with
`"S->>T: Msg0 (x100)"`). -/
theorem c3_collapsed_line_suffix_mangled :
    (MermaidFormatter.flush c3StateAfterTwo).1 = "A->>B: Act （x2）" ∧
    (MermaidFormatter.flush c3StateAfterTwo).1.data.count '\n' = 0 ∧
    " (x2)".data.isSuffixOf (MermaidFormatter.flush c3StateAfterTwo).1.data
      = false ∧
    " （x2）".data.isSuffixOf (MermaidFormatter.flush c3StateAfterTwo).1.data
      = true :=
  ⟨by decide, by decide, by decide, by decide⟩

/-- The call event of the call/return pair collapse scenario. -/
def c4CallEvent : FlowEvent :=
  { source := "A", target := "B", action := "Ping", message := "Ping",
    trace_id := "t" }

/-- The structural return counterpart of `c4CallEvent`: source and
target swapped, same action, `is_return` set. -/
def c4ReturnEvent : FlowEvent :=
  { source := "B", target := "A", action := "Ping", message := "Return",
    trace_id := "t", is_return := true, result := some "pong" }

/-- Formatter state after consuming call, return, call, return
(N = 2 pairs). -/
def c4StateAfterTwoPairs : FormatterState :=
  (MermaidFormatter.format
    (MermaidFormatter.format
      (MermaidFormatter.format
        (MermaidFormatter.format initFormatter c4CallEvent).2
        c4ReturnEvent).2
      c4CallEvent).2
    c4ReturnEvent).2

/-- C4, evaluated at the failing input N = 2: flushing after two
call/return pairs does yield exactly two diagram lines — one call line
and one return line — but each repeat annotation comes out as `（x2）`
with fullwidth parentheses (same escape-after-suffix ordering as in the
repeated-call case), so neither line ends in ` (x2)` as claimed. -/
theorem c4_pair_collapse_suffix_mangled :
    (MermaidFormatter.flush c4StateAfterTwoPairs).1 =
      "A->>B: Ping （x2）\nB-->>A: Return: pong （x2）" ∧
    (MermaidFormatter.flush c4StateAfterTwoPairs).1.data.count '\n' = 1 ∧
    " (x2)".data.isSuffixOf
      (MermaidFormatter.flush c4StateAfterTwoPairs).1.data = false ∧
    " （x2）".data.isSuffixOf
      (MermaidFormatter.flush c4StateAfterTwoPairs).1.data = true :=
  ⟨by decide, by decide, by decide, by decide⟩

/-- The event used to exhibit the unbounded pending buffer. -/
def c7Event : FlowEvent :=
  { source := "S", target := "T", action := "Go", message := "Go",
    trace_id := "t" }

/-- C7 counterexample: after three identical events the pending buffer
holds three events — while a pattern is active the buffer accumulates
one entry per repetition, so it is not bounded by 2. -/
theorem c7_buffer_can_exceed_two :
    ((MermaidFormatter.format
        (MermaidFormatter.format
          (MermaidFormatter.format initFormatter c7Event).2 c7Event).2
        c7Event).2).event_buffer.length = 3 ∧
    ¬ ((MermaidFormatter.format
        (MermaidFormatter.format
          (MermaidFormatter.format initFormatter c7Event).2 c7Event).2
        c7Event).2).event_buffer.length ≤ 2 :=
  ⟨by decide, by decide⟩

/-- C7 as amended: whenever no repetition pattern is currently active,
the pending buffer of a formatter driven by any sequence of
consume/flush calls holds at most 2 events (in fact at most 1); only
while a confirmed pattern is being extended does the buffer grow beyond
that, and it is emptied again by the flush that emits the pattern. -/
theorem c7_buffer_bounded_without_pattern (ops : List FmtOp)
    (h : (runFmt initFormatter ops).current_pattern = []) :
    (runFmt initFormatter ops).event_buffer.length ≤ 2 :=
  Nat.le_trans (runFmt_bufferBounded ops initFormatter (fun _ => Nat.zero_le 1) h)
    (by decide)

/-- C7 witness: a run that consumed one event and flushed it. -/
theorem c7_witness :
    (runFmt initFormatter
      [FmtOp.consume c7Event, FmtOp.doFlush]).event_buffer.length ≤ 2 :=
  c7_buffer_bounded_without_pattern [FmtOp.consume c7Event, FmtOp.doFlush]
    (by decide)

/-- A logging record as `AsyncMermaidHandler.emit` sees it: its numeric
severity and its message text. -/
structure LogRecord where
  levelno : Nat
  msg : String
deriving DecidableEq, Repr

/-- `logging.WARNING`. -/
def WARNING : Nat := 30

/-- `AsyncMermaidHandler` state: the bounded FIFO and its capacity
(`queue.Queue(queue_size)`). -/
structure AsyncHandlerState where
  queue : List LogRecord
  queue_size : Nat
deriving DecidableEq, Repr

/-- `queue.Queue.put(record, block=True, timeout=0.1)`: the bounded
queue observed at the instant the bounded wait expires — the put
succeeds iff a slot is free then, and raises `queue.Full` otherwise.
(The 0.1 s wall-clock wait itself has no shallow embedding; what is
modelled is that the wait ends and the caller is never blocked
indefinitely.) -/
def queuePut (st : AsyncHandlerState) (r : LogRecord) :
    Except Unit AsyncHandlerState :=
  if st.queue.length < st.queue_size then
    Except.ok { st with queue := st.queue ++ [r] }
  else Except.error ()

namespace AsyncMermaidHandler

/-- `AsyncMermaidHandler.emit(record)` (`handlers/async_handler.py`):
try to enqueue; on `queue.Full` drop the record, printing the stderr
diagnostic only for records at `WARNING` severity or above. The
exception is caught inside, so `emit` is total: it returns the new
queue state and the optional diagnostic text. -/
def emit (st : AsyncHandlerState) (r : LogRecord) :
    AsyncHandlerState × Option String :=
  match queuePut st r with
  | Except.ok st' => (st', none)
  | Except.error _ =>
    if WARNING ≤ r.levelno then
      (st, some ("WARNING: AsyncMermaidHandler queue is full (size: " ++
        Nat.repr st.queue_size ++ "), dropping log record: " ++ r.msg))
    else (st, none)

end AsyncMermaidHandler

/-- C8: submitting a record to the async handler while its bounded
queue is full drops the record after the bounded wait instead of
blocking — the queue is left unchanged — and never propagates an
exception (`emit` is total, `queue.Full` being caught inside); the
stderr diagnostic is produced exactly when the record's severity is at
`WARNING` or above. -/
theorem c8_full_queue_drops_quietly (st : AsyncHandlerState) (r : LogRecord)
    (h : ¬ st.queue.length < st.queue_size) :
    (AsyncMermaidHandler.emit st r).1 = st ∧
    ((AsyncMermaidHandler.emit st r).2.isSome ↔ WARNING ≤ r.levelno) := by
  unfold AsyncMermaidHandler.emit queuePut
  rw [if_neg h]
  refine ⟨?_, ?_⟩ <;> split_ifs with hw <;> simp [hw]

/-- C8 witness: a zero-capacity queue with a warning-level record. -/
theorem c8_witness :
    (AsyncMermaidHandler.emit ⟨[], 0⟩ ⟨30, "m"⟩).1 = (⟨[], 0⟩ : AsyncHandlerState) ∧
    ((AsyncMermaidHandler.emit ⟨[], 0⟩ ⟨30, "m"⟩).2.isSome ↔
      WARNING ≤ (30 : Nat)) :=
  c8_full_queue_drops_quietly ⟨[], 0⟩ ⟨30, "m"⟩ (by decide)

/-- The state a `MermaidFileHandler` owns: the diagram title, the
backing file's current text (`stream.tell() == 0` iff it is empty), and
the attached `MermaidFormatter`'s state. -/
structure HandlerState where
  title : String
  content : String := ""
  fmt : FormatterState := {}
deriving DecidableEq, Repr

namespace MermaidHandlerMixin

/-- `MermaidHandlerMixin._write_header`: append the formatter's header
(for `MermaidFormatter` it already ends in a newline, and it coincides
with the fallback header text). -/
def write_header (st : HandlerState) : HandlerState :=
  { st with content := st.content ++ MermaidFormatter.get_header st.title }

/-- `MermaidHandlerMixin.emit(record)` for the plain (non-rotating,
already-open) `MermaidFileHandler`: a record without a `flow_event`
attribute is discarded before anything else happens; otherwise the
header is written first when the write position is zero, then the
formatted text plus the `"\n"` terminator is appended unless the
formatter buffered the event (empty output). -/
def emit (st : HandlerState) (r : Option FlowEvent) : HandlerState :=
  match r with
  | none => st
  | some e =>
    let st1 := if st.content = "" then write_header st else st
    let out := (MermaidFormatter.format st1.fmt e).1
    let fmt2 := (MermaidFormatter.format st1.fmt e).2
    let st2 := { st1 with fmt := fmt2 }
    if out = "" then st2 else { st2 with content := st2.content ++ out ++ "\n" }

/-- `MermaidHandlerMixin.flush`: drain the formatter's pending buffer
into the file (no position-zero check here), then flush the stream
(a no-op on the text model). -/
def flush (st : HandlerState) : HandlerState :=
  let out := (MermaidFormatter.flush st.fmt).1
  let fmt2 := (MermaidFormatter.flush st.fmt).2
  let st1 := { st with fmt := fmt2 }
  if out = "" then st1 else { st1 with content := st1.content ++ out ++ "\n" }

end MermaidHandlerMixin

/-- One call on a sink: an emitted record (with or without a
`flow_event`) or a flush. -/
inductive SinkOp where
  | emitRec (r : Option FlowEvent)
  | flushSink

/-- Apply one sink call. -/
def sinkStep (st : HandlerState) : SinkOp → HandlerState
  | .emitRec r => MermaidHandlerMixin.emit st r
  | .flushSink => MermaidHandlerMixin.flush st

/-- Run a sequence of sink calls. -/
def runSink (st : HandlerState) : List SinkOp → HandlerState
  | [] => st
  | op :: ops => runSink (sinkStep st op) ops

/-- A freshly created (or freshly rotated) sink: empty file, fresh
formatter. -/
def initSink (title : String) : HandlerState := { title := title }

/-- String concatenation concatenates the underlying character
lists. -/
lemma string_data_append (s t : String) : (s ++ t).data = s.data ++ t.data := by
  cases s; cases t; rfl

/-- The Mermaid header is never the empty string. -/
lemma get_header_data_ne_nil (title : String) :
    (MermaidFormatter.get_header title).data ≠ [] := by
  unfold MermaidFormatter.get_header
  rw [string_data_append, string_data_append]
  simp

/-- `flush` on an empty buffer returns no text and leaves the state
untouched. -/
lemma flush_empty_buffer (st : FormatterState) (h : st.event_buffer = []) :
    MermaidFormatter.flush st = ("", st) := by
  unfold MermaidFormatter.flush
  rw [h]

/-- The sink invariant: an empty file means the formatter has nothing
buffered, and a nonempty file starts with the header text. -/
def headerInvariant (st : HandlerState) : Prop :=
  (st.content = "" → st.fmt.event_buffer = []) ∧
  (st.content ≠ "" →
    (MermaidFormatter.get_header st.title).data <+: st.content.data)

/-- A prefix stays a prefix after appending. -/
lemma prefix_of_append {α : Type} {p l t : List α} (h : p <+: l) : p <+: l ++ t :=
  h.trans (List.prefix_append l t)

/-- No sink call changes the configured title. -/
lemma sinkStep_title (st : HandlerState) (op : SinkOp) :
    (sinkStep st op).title = st.title := by
  cases op with
  | emitRec r =>
    cases r with
    | none => rfl
    | some e =>
      unfold sinkStep MermaidHandlerMixin.emit MermaidHandlerMixin.write_header
      dsimp only
      split_ifs <;> rfl
  | flushSink =>
    unfold sinkStep MermaidHandlerMixin.flush
    dsimp only
    split_ifs <;> rfl

/-- Writing an event into an empty file puts the header up front. -/
lemma emit_on_empty_content (st : HandlerState) (e : FlowEvent)
    (hc : st.content = "") :
    (MermaidFormatter.get_header st.title).data <+:
      (MermaidHandlerMixin.emit st (some e)).content.data := by
  unfold MermaidHandlerMixin.emit MermaidHandlerMixin.write_header
  dsimp only
  rw [if_pos hc]
  have hcd : st.content.data = [] := by rw [hc]
  split_ifs with ho
  · rw [string_data_append, hcd]
    simp
  · rw [string_data_append, string_data_append, string_data_append, hcd]
    simp

/-- Every sink call preserves the header invariant. -/
lemma sinkStep_inv (st : HandlerState) (op : SinkOp) (hI : headerInvariant st) :
    headerInvariant (sinkStep st op) := by
  cases op with
  | emitRec r =>
    cases r with
    | none => exact hI
    | some e =>
      show headerInvariant (MermaidHandlerMixin.emit st (some e))
      have ht : (MermaidHandlerMixin.emit st (some e)).title = st.title :=
        sinkStep_title st (SinkOp.emitRec (some e))
      by_cases hc : st.content = ""
      · refine ⟨fun h0 => absurd h0 ?_, fun _ => ?_⟩
        · unfold MermaidHandlerMixin.emit MermaidHandlerMixin.write_header
          dsimp only
          rw [if_pos hc]
          have hcd : st.content.data = [] := by rw [hc]
          split_ifs with ho
          · intro h0
            have := congrArg String.data h0
            rw [string_data_append, hcd] at this
            exact get_header_data_ne_nil st.title (by simpa using this)
          · intro h0
            have := congrArg String.data h0
            rw [string_data_append, string_data_append, string_data_append,
              hcd] at this
            simp at this
        · rw [ht]
          exact emit_on_empty_content st e hc
      · unfold MermaidHandlerMixin.emit MermaidHandlerMixin.write_header
        dsimp only
        rw [if_neg hc]
        constructor
        · intro h0
          exfalso
          split_ifs at h0 with ho
          · exact hc h0
          · have := congrArg String.data h0
            rw [string_data_append, string_data_append] at this
            simp at this
        · intro _
          split_ifs with ho
          · exact hI.2 hc
          · rw [string_data_append, string_data_append]
            exact prefix_of_append (prefix_of_append (hI.2 hc))
  | flushSink =>
    show headerInvariant (MermaidHandlerMixin.flush st)
    by_cases hc : st.content = ""
    · have hb := hI.1 hc
      unfold MermaidHandlerMixin.flush
      rw [flush_empty_buffer st.fmt hb]
      simpa using hI
    · unfold MermaidHandlerMixin.flush
      dsimp only
      constructor
      · intro h0
        exfalso
        split_ifs at h0 with ho
        · exact hc h0
        · have := congrArg String.data h0
          rw [string_data_append, string_data_append] at this
          simp at this
      · intro _
        split_ifs with ho
        · exact hI.2 hc
        · rw [string_data_append, string_data_append]
          exact prefix_of_append (prefix_of_append (hI.2 hc))

/-- The header invariant holds along any run of sink calls. -/
lemma runSink_inv (ops : List SinkOp) :
    ∀ st : HandlerState, headerInvariant st → headerInvariant (runSink st ops) := by
  induction ops with
  | nil => exact fun _ h => h
  | cons op ops ih => exact fun st h => ih _ (sinkStep_inv st op h)

/-- The configured title is stable along any run of sink calls. -/
lemma runSink_title (ops : List SinkOp) :
    ∀ st : HandlerState, (runSink st ops).title = st.title := by
  induction ops with
  | nil => exact fun _ => rfl
  | cons op ops ih =>
      intro st
      rw [runSink, ih, sinkStep_title]

/-- C9: writing an event while the stream position is zero writes the
fixed header before the event's line, and consequently after any
sequence of emits and flushes on a fresh (or freshly rotated) sink the
backing file, when nonempty, starts with the header text before any
arrow line. -/
theorem c9_header_written_first (title : String) (ops : List SinkOp)
    (h : (runSink (initSink title) ops).content ≠ "") :
    (MermaidFormatter.get_header title).data <+:
      (runSink (initSink title) ops).content.data ∧
    ∀ (st : HandlerState) (e : FlowEvent), st.content = "" →
      (MermaidFormatter.get_header st.title).data <+:
        (MermaidHandlerMixin.emit st (some e)).content.data := by
  constructor
  · have hinv := runSink_inv ops (initSink title)
      ⟨fun _ => rfl, fun hne => absurd rfl hne⟩
    have hpre := hinv.2 h
    rwa [runSink_title ops (initSink title)] at hpre
  · exact fun st e hc => emit_on_empty_content st e hc

/-- The event used in the C9 witness run. -/
def c9Event : FlowEvent :=
  { source := "A", target := "B", action := "Go", message := "Go",
    trace_id := "t" }

/-- C9 witness: one emitted event on a fresh sink leaves a nonempty
file that starts with the header. -/
theorem c9_witness :
    (MermaidFormatter.get_header "T").data <+:
      (runSink (initSink "T") [SinkOp.emitRec (some c9Event)]).content.data :=
  (c9_header_written_first "T" [SinkOp.emitRec (some c9Event)] (by decide)).1

/-- C10: a record without a `flow_event` attribute is discarded by the
Mermaid handler's `emit` before any rotation check, header write,
formatting or stream write — the entire handler/formatter/file state is
returned unchanged. -/
theorem c10_recordless_emit_is_noop (st : HandlerState) :
    MermaidHandlerMixin.emit st none = st := rfl

/-- Decimal value of a digit character issued by `Nat.digitChar`. -/
def digitVal (c : Char) : Nat := c.toNat - 48

/-- Decimal value of a most-significant-first digit string, used to
show that `Nat.repr` is injective. -/
def valChars : List Char → Nat
  | [] => 0
  | c :: cs => digitVal c * 10 ^ cs.length + valChars cs

/-- `digitVal` inverts `Nat.digitChar` on decimal digits. -/
lemma digitVal_digitChar {m : Nat} (h : m < 10) :
    digitVal (Nat.digitChar m) = m := by
  interval_cases m <;> rfl

/-- One unfolding step of the fueled core of `Nat.repr`. -/
lemma toDigitsCore_succ_eq (f n : Nat) (acc : List Char) :
    Nat.toDigitsCore 10 (f + 1) n acc =
      if n / 10 = 0 then Nat.digitChar (n % 10) :: acc
      else Nat.toDigitsCore 10 f (n / 10) (Nat.digitChar (n % 10) :: acc) := rfl

/-- With enough fuel, the digit string produced by `Nat.toDigitsCore`
evaluates back to the number it was produced from. -/
lemma valChars_toDigitsCore :
    ∀ (f n : Nat) (acc : List Char), n < 10 ^ f →
      valChars (Nat.toDigitsCore 10 f n acc)
        = n * 10 ^ acc.length + valChars acc := by
  intro f
  induction f with
  | zero =>
      intro n acc h
      interval_cases n
      simp [Nat.toDigitsCore]
  | succ f ih =>
      intro n acc h
      rw [toDigitsCore_succ_eq]
      by_cases hz : n / 10 = 0
      · rw [if_pos hz]
        have hmod : n % 10 = n := by omega
        rw [valChars, digitVal_digitChar (Nat.mod_lt n (by norm_num)), hmod]
      · rw [if_neg hz]
        have hlt : n / 10 < 10 ^ f := by
          rw [Nat.div_lt_iff_lt_mul (by norm_num : (0:Nat) < 10)]
          calc n < 10 ^ (f + 1) := h
          _ = 10 ^ f * 10 := by rw [pow_succ]
        rw [ih (n / 10) (Nat.digitChar (n % 10) :: acc) hlt]
        rw [valChars, digitVal_digitChar (Nat.mod_lt n (by norm_num))]
        have hn : n = 10 * (n / 10) + n % 10 := (Nat.div_add_mod n 10).symm
        conv_rhs => rw [hn]
        simp [List.length_cons, pow_succ]
        ring

/-- The decimal string of `n` evaluates back to `n`. -/
lemma valChars_toDigits (n : Nat) : valChars (Nat.toDigits 10 n) = n := by
  have h : n < 10 ^ (n + 1) := by
    calc n < 10 ^ n := Nat.lt_pow_self (by norm_num) n
    _ ≤ 10 ^ (n + 1) := Nat.pow_le_pow_right (by norm_num) (Nat.le_succ n)
  have hv := valChars_toDigitsCore (n + 1) n [] h
  simpa [Nat.toDigits, valChars] using hv

/-- Distinct naturals render to distinct decimal strings, so the
collision loop's candidates never repeat. -/
lemma Nat_repr_injective : Function.Injective Nat.repr := by
  intro m n h
  have hd : Nat.toDigits 10 m = Nat.toDigits 10 n := by
    have hdata := congrArg String.data h
    simpa [Nat.repr, List.asString] using hdata
  have hv := congrArg valChars hd
  rwa [valChars_toDigits, valChars_toDigits] at hv

/-- Left cancellation for string concatenation. -/
lemma string_append_cancel {s t u : String} (h : s ++ t = s ++ u) : t = u := by
  have hdata := congrArg String.data h
  rw [string_data_append, string_data_append] at hdata
  have hd := List.append_cancel_left hdata
  cases t
  cases u
  exact congrArg String.mk hd

/-- The suffixed candidates `base_k` of the collision loop are pairwise
distinct. -/
lemma cand_injective (base : String) :
    Function.Injective (fun k : Nat => base ++ "_" ++ Nat.repr k) := by
  intro a b h
  exact Nat_repr_injective (string_append_cancel h)

/-- Pigeonhole: among the first `used.length + 1` candidates starting
at any counter there is one not yet issued. -/
lemma exists_fresh_candidate (base : String) (used : List String) (k : Nat) :
    ∃ i, i < used.length + 1 ∧ (base ++ "_" ++ Nat.repr (k + i)) ∉ used := by
  by_contra hcon
  push_neg at hcon
  have hsub : (List.range (used.length + 1)).map
      (fun i => base ++ "_" ++ Nat.repr (k + i)) ⊆ used := by
    intro x hx
    simp only [List.mem_map, List.mem_range] at hx
    obtain ⟨i, hi, rfl⟩ := hx
    exact hcon i hi
  have hnodup : ((List.range (used.length + 1)).map
      (fun i => base ++ "_" ++ Nat.repr (k + i))).Nodup := by
    refine List.Nodup.map ?_ (List.nodup_range _)
    intro a b hab
    have := cand_injective base hab
    omega
  have hlen := (List.subperm_of_subset hnodup hsub).length_le
  simp only [List.length_map, List.length_range] at hlen
  omega

/-- The collision loop returns an id outside `used` whenever some
candidate within its fuel budget is outside `used`. -/
lemma findFresh_not_mem (base : String) (used : List String) :
    ∀ (fuel k : Nat),
      (∃ i, i < fuel ∧ (base ++ "_" ++ Nat.repr (k + i)) ∉ used) →
      MermaidFormatter.findFresh base used fuel k ∉ used := by
  intro fuel
  induction fuel with
  | zero =>
      rintro k ⟨i, hi, _⟩
      omega
  | succ fuel ih =>
      rintro k ⟨i, hi, hni⟩
      rw [MermaidFormatter.findFresh]
      by_cases hc : (base ++ "_" ++ Nat.repr k) ∈ used
      · rw [if_pos hc]
        apply ih
        rcases Nat.eq_zero_or_pos i with rfl | hpos
        · exact absurd hc (by simpa using hni)
        · refine ⟨i - 1, by omega, ?_⟩
          have harith : k + 1 + (i - 1) = k + i := by omega
          rw [harith]
          exact hni
      · rw [if_neg hc]
        exact hc

/-- Every id `_sanitize` issues is checked against — and lies outside —
the set of previously issued ids. -/
lemma freshCleanId_not_mem (name : String) (used : List String) :
    MermaidFormatter.freshCleanId name used ∉ used := by
  unfold MermaidFormatter.freshCleanId
  by_cases hc : MermaidFormatter.cleanName name ∈ used
  · rw [if_pos hc]
    obtain ⟨i, hi, hni⟩ :=
      exists_fresh_candidate (MermaidFormatter.cleanName name) used 1
    exact findFresh_not_mem _ used (used.length + 1) 1 ⟨i, hi, hni⟩
  · rw [if_neg hc]
    exact hc

/-- Feed a sequence of raw participant names through `_sanitize` on one
formatter instance. -/
def runSanitize (st : FormatterState) : List String → FormatterState
  | [] => st
  | n :: ns => runSanitize (MermaidFormatter.sanitize st n).2 ns

/-- The sanitizer invariant: every cached id was issued, and no two map
entries share an id. -/
def sanitizeInvariant (st : FormatterState) : Prop :=
  (∀ p ∈ st.participant_map, p.2 ∈ st.used_ids) ∧
  st.participant_map.Pairwise (fun p q => p.2 ≠ q.2)

/-- `_sanitize` preserves the sanitizer invariant. -/
lemma sanitize_invariant (st : FormatterState) (n : String)
    (h : sanitizeInvariant st) :
    sanitizeInvariant (MermaidFormatter.sanitize st n).2 := by
  unfold MermaidFormatter.sanitize
  cases hl : st.participant_map.lookup n with
  | some id => exact h
  | none =>
      dsimp only
      constructor
      · intro p hp
        rcases List.mem_cons.mp hp with rfl | hp2
        · exact List.mem_cons_self _ _
        · exact List.mem_cons_of_mem _ (h.1 p hp2)
      · refine List.Pairwise.cons ?_ h.2
        intro q hq heq
        have hqmem : q.2 ∈ st.used_ids := h.1 q hq
        rw [show (n, MermaidFormatter.freshCleanId n st.used_ids).2
            = MermaidFormatter.freshCleanId n st.used_ids from rfl] at heq
        rw [← heq] at hqmem
        exact freshCleanId_not_mem n st.used_ids hqmem

/-- The sanitizer invariant holds after any sequence of names. -/
lemma runSanitize_invariant (names : List String) :
    ∀ st : FormatterState, sanitizeInvariant st →
      sanitizeInvariant (runSanitize st names) := by
  induction names with
  | nil => exact fun _ h => h
  | cons n ns ih => exact fun st h => ih _ (sanitize_invariant st n h)

/-- A successful association-list lookup exhibits a member. -/
lemma mem_of_lookup_some {l : List (String × String)} {k v : String}
    (h : l.lookup k = some v) : (k, v) ∈ l := by
  induction l with
  | nil => simp [List.lookup] at h
  | cons p l ih =>
      rw [List.lookup] at h
      cases hb : (k == p.1) with
      | true =>
          rw [hb] at h
          have hk : k = p.1 := eq_of_beq hb
          cases p
          simp_all
      | false =>
          rw [hb] at h
          exact List.mem_cons_of_mem _ (ih h)

/-- C6: on one formatter instance, `_sanitize` is injective across any
sequence of raw participant names — two distinct raw names are never
cached with the same sanitized identifier, because each newly issued id
(cleaned, or disambiguated by the numeric-suffix loop) is checked
against all previously issued ids. -/
theorem c6_sanitize_injective (names : List String) (n1 n2 i1 i2 : String)
    (hne : n1 ≠ n2)
    (h1 : (runSanitize initFormatter names).participant_map.lookup n1 = some i1)
    (h2 : (runSanitize initFormatter names).participant_map.lookup n2 = some i2) :
    i1 ≠ i2 := by
  have hinv : sanitizeInvariant (runSanitize initFormatter names) :=
    runSanitize_invariant names initFormatter
      ⟨fun p hp => absurd hp (List.not_mem_nil p), List.Pairwise.nil⟩
  have m1 := mem_of_lookup_some h1
  have m2 := mem_of_lookup_some h2
  have hne2 : (n1, i1) ≠ (n2, i2) := fun hp => hne (congrArg Prod.fst hp)
  exact hinv.2.forall (fun p q hpq => Ne.symm hpq) m1 m2 hne2

/-- C6 witness: `"a b"` and `"a.b"` both clean to `a_b`; the second
gets the suffixed id `a_b_1`, distinct from the first. -/
theorem c6_witness :
    (runSanitize initFormatter ["a b", "a.b"]).participant_map.lookup "a b"
      = some "a_b" ∧
    (runSanitize initFormatter ["a b", "a.b"]).participant_map.lookup "a.b"
      = some "a_b_1" ∧
    ("a_b" : String) ≠ "a_b_1" :=
  ⟨by decide, by decide,
    c6_sanitize_injective ["a b", "a.b"] "a b" "a.b" "a_b" "a_b_1"
      (by decide) (by decide) (by decide)⟩

end MermaidTrace
